import Mathlib

/-!
Shallow embedding of `scripts/verify_script_baseline.py`, the roadmap
script-baseline checker, together with theorems about its behaviour.

Modelling conventions:
* Python `pathlib.Path` values are modelled as lists of path segments
  (`FPath`); `Path.resolve()` is the identity (paths are taken as already
  resolved and normalised), `str(path)` joins segments with `/`.
* Python strings are Lean `String`s; the character classes of the regular
  expressions (`\s`, `\w`, `\d`) are modelled over ASCII, which covers the
  script texts the checker consumes.
* Fallible Python operations (`Path.relative_to`, `with_suffix` on an
  empty-name path, file reads) are modelled with `Option` / `Except`.
* The filesystem is an explicit record of the operations the checker
  performs on it (read a file, existence test, regular-file test,
  recursive `*.py` listing).
-/

namespace VerifyScriptBaseline

/-! ### Character classes (ASCII model of Python `\s`, `\w`, `[A-Za-z_]`) -/

def isPyWs (c : Char) : Bool :=
  c = ' ' || c = '\t' || c = '\n' || c = '\r' || c = '\x0b' || c = '\x0c'

def isWordChar (c : Char) : Bool :=
  c.isAlpha || c.isDigit || c = '_'

def isIdentChar (c : Char) : Bool :=
  c.isAlpha || c = '_'

def quoteChar : Char := Char.ofNat 34

def apostropheChar : Char := Char.ofNat 39

/-! ### Generic string helpers shared by the text processing -/

/-- Expect `lit` as a prefix of `cs`; return the remainder on success. -/
def chompLit : List Char → List Char → Option (List Char)
  | [], cs => some cs
  | _ :: _, [] => none
  | l :: ls, c :: cs => if c = l then chompLit ls cs else none

def chompLitS (lit : String) (cs : List Char) : Option (List Char) :=
  chompLit lit.data cs

/-- Regex `\s+`: at least one whitespace character, consumed greedily. -/
def chompWs1 (cs : List Char) : Option (List Char) :=
  match cs with
  | c :: rest => if isPyWs c then some (rest.dropWhile isPyWs) else none
  | [] => none

def dropWs (cs : List Char) : List Char := cs.dropWhile isPyWs

/-- Regex `\b` immediately after a word character: next char is non-word or end. -/
def atWordBoundary : List Char → Bool
  | [] => true
  | c :: _ => !isWordChar c

/-- Python `s.startswith(t)` (data-level, so it evaluates by `rfl`). -/
def strStartsWith (s t : String) : Bool :=
  (chompLitS t s.data).isSome

/-- Python `sub in s` substring containment. -/
def containsSubstr (s sub : String) : Bool :=
  (List.range (s.data.length + 1)).any (fun i => (chompLitS sub (s.data.drop i)).isSome)

/-- Python `str.splitlines` (line-break characters modelled over ASCII
plus `\x85`, ` `, ` `; `\r\n` counts as a single break). -/
def isLineBreakChar (c : Char) : Bool :=
  c = '\n' || c = '\r' || c = '\x0b' || c = '\x0c' ||
  c = '\x1c' || c = '\x1d' || c = '\x1e' || c = '\x85' ||
  c = ' ' || c = ' '

def splitlinesGo : List Char → List Char → List String
  | [], acc => if acc.isEmpty then [] else [String.mk acc.reverse]
  | '\r' :: '\n' :: rest, acc => String.mk acc.reverse :: splitlinesGo rest []
  | c :: rest, acc =>
    if isLineBreakChar c then String.mk acc.reverse :: splitlinesGo rest []
    else splitlinesGo rest (c :: acc)

def pySplitlines (s : String) : List String := splitlinesGo s.data []

/-- Python `str.strip(chars)` generalised over a character predicate. -/
def stripChars (s : String) (p : Char → Bool) : String :=
  String.mk (((s.data.dropWhile p).reverse.dropWhile p).reverse)

def pyStrip (s : String) : String := stripChars s isPyWs

/-- Python strip of single- and double-quote characters from both ends. -/
def stripQuotes (s : String) : String :=
  stripChars s (fun c => c = apostropheChar || c = quoteChar)

/-- Python `line.removeprefix("#")`. -/
def removePrefixHash (s : String) : String :=
  match s.data with
  | '#' :: rest => String.mk rest
  | _ => s

/-- Split on the first `=`, as `cleaned.split("=", maxsplit=1)` after the
`"=" in cleaned` membership test (`none` when no `=` occurs). -/
def splitFirstEq : List Char → Option (List Char × List Char)
  | [] => none
  | '=' :: rest => some ([], rest)
  | c :: rest => (splitFirstEq rest).map (fun p => (c :: p.1, p.2))

/-! ### Path model -/

structure FPath where
  segs : List String
deriving DecidableEq, Repr

def FPath.name (p : FPath) : String := p.segs.getLast?.getD ""

def pathStr (p : FPath) : String := String.intercalate "/" p.segs

/-- Python `Path.relative_to` (`none` models the `ValueError` raised when `root`
is not an ancestor). -/
def relative_to (p root : FPath) : Option FPath :=
  if root.segs.isPrefixOf p.segs then some ⟨p.segs.drop root.segs.length⟩ else none

/-- The name/extension split of pathlib: the suffix is the tail from the last
dot index `i` when `0 < i < len(name) - 1`, else empty. -/
def pySplitExt (n : String) : String × String :=
  let cs := n.data
  let extRev := cs.reverse.takeWhile (fun c => c ≠ '.')
  if extRev.length = cs.length then (n, "")
  else
    let i := cs.length - extRev.length - 1
    if i = 0 ∨ extRev.length = 0 then (n, "")
    else (String.mk (cs.take i), String.mk (cs.drop i))

def pySuffix (n : String) : String := (pySplitExt n).2

/-- The final path component after `with_suffix("")`: the stem. -/
def pyStem (n : String) : String := (pySplitExt n).1

/-! ### Constants of the checker -/

def UV_SHEBANG : String := "#!/usr/bin/env -S uv run python"

def UV_BLOCK_START : String := "# /// script"

def UV_BLOCK_END : String := "# ///"

def REQUIRES_PYTHON : String := ">=3.13"

/-! ### Eligibility and the matching-test resolver -/

/-- Source `is_roadmap_script`; `Except.error ()` models the `ValueError` that
`relative_to` raises for paths outside the scripts root.  The filename
checks run before relativization, exactly as in the source. -/
def is_roadmap_script (path scripts_root : FPath) : Except Unit Bool :=
  if pySuffix path.name ≠ ".py" then .ok false
  else if strStartsWith path.name "_" then .ok false
  else if path.name = "__init__.py" then .ok false
  else
    match relative_to path scripts_root with
    | none => .error ()
    | some relative => .ok (!relative.segs.contains "tests")

/-- Source `expected_test_path`: `scripts_root / "tests" / relative.parent /
f"test_(relative stem).py"`.  `none` models the propagated `ValueError`
when the script is not under the root or the relative path has no name. -/
def expected_test_path (script_path scripts_root : FPath) : Option FPath :=
  match relative_to script_path scripts_root with
  | none => none
  | some relative =>
    match relative.segs.getLast? with
    | none => none
    | some n =>
      some ⟨scripts_root.segs ++ "tests" ::
        (relative.segs.dropLast ++ ["test_" ++ pyStem n ++ ".py"])⟩

/-! ### Issues -/

structure BaselineIssue where
  path : FPath
  message : String
deriving DecidableEq, Repr

/-! ### Metadata parsing (`parse_uv_metadata`) -/

/-- Python `str.split(",")` (data-level). -/
def splitOnCommaGo : List Char → List Char → List String
  | [], acc => [String.mk acc.reverse]
  | ',' :: rest, acc => String.mk acc.reverse :: splitOnCommaGo rest []
  | c :: rest, acc => splitOnCommaGo rest (c :: acc)

def splitOnComma (s : String) : List String := splitOnCommaGo s.data []

/-- Python `dict` assignment: overwrite in place, else append. -/
def dictSet (m : List (String × String)) (k v : String) : List (String × String) :=
  if m.any (fun kv => kv.1 = k) then
    m.map (fun kv => if kv.1 = k then (k, v) else kv)
  else m ++ [(k, v)]

/-- Python `dict.get`. -/
def dictGet (m : List (String × String)) (k : String) : Option String :=
  (m.find? (fun kv => kv.1 = k)).map (fun kv => kv.2)

/-- Python `key in dict`. -/
def dictContains (m : List (String × String)) (k : String) : Bool :=
  m.any (fun kv => kv.1 = k)

/-- Python `lines.index(x, start)`: first index of `x` at or after `start`. -/
def indexOfFrom (xs : List String) (x : String) (start : Nat) : Option Nat :=
  ((xs.drop start).findIdx? (fun line => line = x)).map (fun j => start + j)

/-- One metadata line: strip the comment marker and whitespace, skip lines
without `=`, split on the first `=`, trim key and value. -/
def metadataLineKV (line : String) : Option (String × String) :=
  match splitFirstEq (pyStrip (removePrefixHash line)).data with
  | none => none
  | some (k, v) => some (pyStrip (String.mk k), pyStrip (String.mk v))

def parse_uv_metadata (script_text : String) : List (String × String) :=
  let lines := pySplitlines script_text
  match indexOfFrom lines UV_BLOCK_START 0 with
  | none => []
  | some block_start =>
    match indexOfFrom lines UV_BLOCK_END (block_start + 1) with
    | none => []
    | some block_end =>
      ((lines.drop (block_start + 1)).take (block_end - (block_start + 1))).foldl
        (fun metadata line =>
          match metadataLineKV line with
          | none => metadata
          | some kv => dictSet metadata kv.1 kv.2)
        []

/-! ### `requires-python` baseline check -/

/-- Tail of the pattern `>=\s*3\.13(?:\.\d+)?$` after the `3.13` literal:
either the end, or a dot followed by one or more digits. -/
def optPatchThenEnd : List Char → Bool
  | [] => true
  | '.' :: ds => !ds.isEmpty && ds.all Char.isDigit
  | _ => false

/-- Python `re.fullmatch(r">=\s*3\.13(?:\.\d+)?$", part)`. -/
def matchesBaselineConstraint (part : String) : Bool :=
  match chompLitS ">=" part.data with
  | none => false
  | some r =>
    match chompLitS "3.13" (dropWs r) with
    | none => false
    | some r2 => optPatchThenEnd r2

def _has_required_python_baseline (requires_python : String) : Bool :=
  let cleaned := stripQuotes (pyStrip requires_python)
  let constraints := (splitOnComma cleaned).map (fun part => stripQuotes (pyStrip part))
  constraints.any matchesBaselineConstraint

/-! ### Runtime-metadata validation -/

def missingShebangMessage : String :=
  "missing expected uv shebang `" ++ UV_SHEBANG ++ "`"

def missingBlockMessage : String :=
  "missing uv metadata block (`# /// script` ... `# ///`)"

def requiresPythonMessage : String :=
  "requires-python must include `" ++ REQUIRES_PYTHON ++ "`"

def dependenciesMessage : String :=
  "uv metadata must declare `dependencies`"

def validate_runtime_metadata (path : FPath) (script_text : String) : List BaselineIssue :=
  let lines := pySplitlines script_text
  let shebang := lines.headD ""
  let issues : List BaselineIssue :=
    if shebang ≠ UV_SHEBANG then [⟨path, missingShebangMessage⟩] else []
  let metadata := parse_uv_metadata script_text
  if metadata.isEmpty then
    issues ++ [⟨path, missingBlockMessage⟩]
  else
    let requiresOk :=
      match dictGet metadata "requires-python" with
      | none => false
      | some requires_python => _has_required_python_baseline requires_python
    let issues := if !requiresOk then issues ++ [⟨path, requiresPythonMessage⟩] else issues
    let issues :=
      if !dictContains metadata "dependencies" then issues ++ [⟨path, dependenciesMessage⟩]
      else issues
    issues

/-! ### Forbidden-pattern rule set

Each source regex is modelled as an anchored token sequence.  Greedy
whitespace/identifier runs are faithful here because in every pattern the
token after a run starts with a character outside the class of the run, so the
backtracking regex engine and the greedy scan accept the same strings. -/

inductive Tok where
  | lit (s : String)
  | alts (ss : List String)
  | ws1
  | identRun1
  | wb
deriving Repr

def runToks : List Tok → List Char → Bool
  | [], _ => true
  | Tok.lit s :: ts, cs =>
    match chompLitS s cs with
    | some r => runToks ts r
    | none => false
  | Tok.alts ss :: ts, cs =>
    ss.any (fun s =>
      match chompLitS s cs with
      | some r => runToks ts r
      | none => false)
  | Tok.ws1 :: ts, cs =>
    match chompWs1 cs with
    | some r => runToks ts r
    | none => false
  | Tok.identRun1 :: ts, cs =>
    !(cs.takeWhile isIdentChar).isEmpty && runToks ts (cs.dropWhile isIdentChar)
  | Tok.wb :: ts, cs => atWordBoundary cs && runToks ts cs

/-- Anchor `^` in `re.MULTILINE`: start of text or just after a newline. -/
def lineStartAt (cs : List Char) (i : Nat) : Bool :=
  match i with
  | 0 => true
  | j + 1 => cs[j]? = some '\n'

/-- Regex `\b` before a word character: start of text or a non-word char before. -/
def prevNonWordAt (cs : List Char) (i : Nat) : Bool :=
  match i with
  | 0 => true
  | j + 1 =>
    match cs[j]? with
    | some c => !isWordChar c
    | none => true

inductive Anchor where
  | lineStart
  | nonWordBefore
deriving Repr

def anchorAt : Anchor → List Char → Nat → Bool
  | Anchor.lineStart, cs, i => lineStartAt cs i
  | Anchor.nonWordBefore, cs, i => prevNonWordAt cs i

/-- Python `pattern.search(text)`: a match may begin at any position.  A leading
`\s*` is folded into trying every position after the anchor (the next
token never starts with whitespace, so this is the same match set). -/
def reSearch (a : Anchor) (skipLeadingWs : Bool) (ts : List Tok) (s : String) : Bool :=
  (List.range (s.data.length + 1)).any (fun i =>
    anchorAt a s.data i &&
      runToks ts (if skipLeadingWs then dropWs (s.data.drop i) else s.data.drop i))

/-- Pattern `^\s*(from|import)\s+plumbum\b` -/
def patPlumbumImport (s : String) : Bool :=
  reSearch Anchor.lineStart true
    [Tok.alts ["from", "import"], Tok.ws1, Tok.lit "plumbum", Tok.wb] s

/-- Pattern `^\s*import\s+subprocess\b` -/
def patImportSubprocess (s : String) : Bool :=
  reSearch Anchor.lineStart true
    [Tok.lit "import", Tok.ws1, Tok.lit "subprocess", Tok.wb] s

/-- Pattern `^\s*from\s+subprocess\s+import\b` -/
def patFromSubprocessImport (s : String) : Bool :=
  reSearch Anchor.lineStart true
    [Tok.lit "from", Tok.ws1, Tok.lit "subprocess", Tok.ws1, Tok.lit "import", Tok.wb] s

/-- Pattern `\bsubprocess\.[A-Za-z_]+\(` -/
def patSubprocessCall (s : String) : Bool :=
  reSearch Anchor.nonWordBefore false
    [Tok.lit "subprocess.", Tok.identRun1, Tok.lit "("] s

/-- Pattern `\bos\.(system|popen)\(` -/
def patOsShell (s : String) : Bool :=
  reSearch Anchor.nonWordBefore false
    [Tok.lit "os.", Tok.alts ["system", "popen"], Tok.lit "("] s

/-- Pattern `^\s*from\s+cuprum\s+import\s+local\b` -/
def patCuprumLocal (s : String) : Bool :=
  reSearch Anchor.lineStart true
    [Tok.lit "from", Tok.ws1, Tok.lit "cuprum", Tok.ws1, Tok.lit "import",
     Tok.ws1, Tok.lit "local", Tok.wb] s

/-- Pattern `^\s*from\s+cuprum\.cmd\s+import\b` -/
def patCuprumCmd (s : String) : Bool :=
  reSearch Anchor.lineStart true
    [Tok.lit "from", Tok.ws1, Tok.lit "cuprum.cmd", Tok.ws1, Tok.lit "import", Tok.wb] s

def FORBIDDEN_PATTERNS : List ((String → Bool) × String) :=
  [(patPlumbumImport, "Plumbum imports are forbidden; use Cuprum"),
   (patImportSubprocess, "subprocess imports are forbidden; use Cuprum"),
   (patFromSubprocessImport, "subprocess imports are forbidden; use Cuprum"),
   (patSubprocessCall, "subprocess invocation is forbidden; use Cuprum"),
   (patOsShell, "shell execution via os.system/os.popen is forbidden"),
   (patCuprumLocal, "`from cuprum import local` is forbidden in baseline scripts"),
   (patCuprumCmd, "`cuprum.cmd` imports are forbidden in baseline scripts")]

def _check_forbidden_patterns (path : FPath) (script_text : String) : List BaselineIssue :=
  FORBIDDEN_PATTERNS.foldl
    (fun issues rule =>
      if rule.1 script_text then issues ++ [⟨path, rule.2⟩] else issues)
    []

/-! ### Command-invocation validation

`_detect_cuprum_usage` and `_run_invocation_present` consult the
`astroid` syntax-tree library when it is available; a full Python parser
is outside this embedding, so the two detectors are parameters of the
composition, and the text-heuristic fallbacks that the source defines are
embedded below for concrete runs. -/

/-- Fallback branch of `_detect_cuprum_usage`:
`"Program(" in script_text or "sh.make(" in script_text`. -/
def detectCuprumUsageFallback (script_text : String) : Bool :=
  containsSubstr script_text "Program(" || containsSubstr script_text "sh.make("

/-- Fallback branch of `_run_invocation_present`:
`"run_sync(" in script_text or re.search(r"\.run\(", script_text)`. -/
def runInvocationFallback (script_text : String) : Bool :=
  containsSubstr script_text "run_sync(" || containsSubstr script_text ".run("

def scopedMessage : String :=
  "Cuprum command execution must use `scoped(...allowlist=...)`"

def runInvocationMessage : String :=
  "Cuprum commands must use `run_sync()` or `run()`"

def _validate_cuprum_requirements (runPresent : String → Bool)
    (path : FPath) (script_text : String) : List BaselineIssue :=
  let issues : List BaselineIssue :=
    if !containsSubstr script_text "scoped(" then [⟨path, scopedMessage⟩] else []
  if !runPresent script_text then issues ++ [⟨path, runInvocationMessage⟩] else issues

def validate_command_invocation (detect runPresent : String → Bool)
    (path : FPath) (script_text : String) : List BaselineIssue :=
  let issues := _check_forbidden_patterns path script_text
  if !detect script_text then issues
  else issues ++ _validate_cuprum_requirements runPresent path script_text

/-! ### Filesystem model and end-to-end pipeline -/

structure FileSystem where
  readFile : FPath → Except String String
  pathExists : FPath → Bool
  isFile : FPath → Bool
  listing : FPath → List FPath

/-- Python `sorted` on paths compares their string forms, as `pathlib` does. -/
def pathLe (a b : FPath) : Bool := decide (pathStr a ≤ pathStr b)

/-- The generator inside `discover_roadmap_scripts`: eligibility is
evaluated per listed path, propagating `relative_to` errors. -/
def filterEligible (fs : FileSystem) (scripts_root : FPath) :
    List FPath → Except Unit (List FPath)
  | [] => .ok []
  | p :: ps => do
    let b ← is_roadmap_script p scripts_root
    let rest ← filterEligible fs scripts_root ps
    return if b then p :: rest else rest

def discover_roadmap_scripts (fs : FileSystem) (scripts_root : FPath) :
    Except Unit (List FPath) :=
  match filterEligible fs scripts_root (fs.listing scripts_root) with
  | .error e => .error e
  | .ok eligible => .ok (eligible.mergeSort pathLe)

/-! ### Matching-test and per-script validation -/

def validate_matching_test (fs : FileSystem) (script_path scripts_root : FPath) :
    Except Unit (List BaselineIssue) :=
  match expected_test_path script_path scripts_root with
  | none => .error ()
  | some expected =>
    if fs.pathExists expected then .ok []
    else
      match relative_to expected scripts_root with
      | none => .error ()
      | some rel =>
        .ok [⟨script_path, "missing matching test `" ++ pathStr rel ++ "`"⟩]

def unableToReadMessage (detail : String) : String :=
  "unable to read script: " ++ detail

def validate_script (fs : FileSystem) (detect runPresent : String → Bool)
    (script_path scripts_root : FPath) : Except Unit (List BaselineIssue) :=
  match fs.readFile script_path with
  | .error detail => .ok [⟨script_path, unableToReadMessage detail⟩]
  | .ok script_text => do
    let testIssues ← validate_matching_test fs script_path scripts_root
    return validate_runtime_metadata script_path script_text ++
      (validate_command_invocation detect runPresent script_path script_text ++
        testIssues)

/-! ### Rendering -/

def issueLe (a b : BaselineIssue) : Bool :=
  decide (pathStr a.path < pathStr b.path ∨
    (pathStr a.path = pathStr b.path ∧ a.message ≤ b.message))

def sortIssues (issues : List BaselineIssue) : List BaselineIssue :=
  issues.mergeSort issueLe

def displayPath (path scripts_root : FPath) : FPath :=
  match relative_to path scripts_root with
  | some r => r
  | none => path

def failureHeader : String := "script baseline validation failed:"

def render_issues (issues : List BaselineIssue) (scripts_root : FPath) : String :=
  String.intercalate "\n"
    (failureHeader ::
      (sortIssues issues).map (fun issue =>
        "- " ++ pathStr (displayPath issue.path scripts_root) ++ ": " ++ issue.message))

/-! ### Explicit path arguments and `main` -/

def notFileMessage : String := "explicit path is not a file"

def notRoadmapMessage : String :=
  "explicit path is not a roadmap-delivered script entrypoint"

def underRootMessage : String :=
  "explicit path must be under scripts root and match roadmap script discovery rules"

/-- Source `_validate_explicit_path` (`path.resolve()` is the identity in this
model, so `path` stands for its resolved form). -/
def _validate_explicit_path (fs : FileSystem) (path scripts_root : FPath) :
    Option BaselineIssue :=
  if !fs.pathExists path then none
  else if !fs.isFile path then some ⟨path, notFileMessage⟩
  else
    match is_roadmap_script path scripts_root with
    | .error _ => some ⟨path, underRootMessage⟩
    | .ok false => some ⟨path, notRoadmapMessage⟩
    | .ok true => none

def _process_explicit_paths (fs : FileSystem) (paths : List FPath)
    (scripts_root : FPath) : List FPath × List BaselineIssue :=
  paths.foldl
    (fun acc path =>
      match _validate_explicit_path fs path scripts_root with
      | some issue => (acc.1, acc.2 ++ [issue])
      | none => (acc.1 ++ [path], acc.2))
    ([], [])

def passedMessage (n : Nat) : String :=
  "script baseline validation passed for " ++ toString n ++ " script(s)"

/-- The argv-dependent choice of script set at the top of `main`. -/
def selectScripts (fs : FileSystem) (argvPaths : List FPath) (scripts_root : FPath) :
    Except Unit (List FPath × List BaselineIssue) :=
  if !argvPaths.isEmpty then .ok (_process_explicit_paths fs argvPaths scripts_root)
  else
    match discover_roadmap_scripts fs scripts_root with
    | .error e => .error e
    | .ok sps => .ok (sps, [])

/-- Source `main`, over parsed arguments (CLI parsing is out of scope): explicit
paths or discovery, per-script validation, aggregation, rendering, exit
code.  The `Except` layer carries a propagated Python exception. -/
def main (fs : FileSystem) (detect runPresent : String → Bool)
    (argvPaths : List FPath) (root : FPath) : Except Unit (Nat × String) :=
  (selectScripts fs argvPaths root).bind (fun sel =>
    (sel.1.mapM (fun p => validate_script fs detect runPresent p root)).bind
      (fun perScript =>
        let issues := sel.2 ++ perScript.flatten
        if !issues.isEmpty then .ok (1, render_issues issues root)
        else .ok (0, passedMessage sel.1.length)))

/-- A filesystem with no files at all, for concrete runs. -/
def emptyFs : FileSystem where
  readFile := fun _ => .error "No such file or directory"
  pathExists := fun _ => false
  isFile := fun _ => false
  listing := fun _ => []

/-- A filesystem on which every path is an existing regular file. -/
def presentFs : FileSystem where
  readFile := fun _ => .error "Permission denied"
  pathExists := fun _ => true
  isFile := fun _ => true
  listing := fun _ => []

/-! ### Helper lemmas for path reasoning -/

theorem strMk_append (a b : List Char) :
    String.mk a ++ String.mk b = String.mk (a ++ b) := rfl

theorem strData_append (a b : String) : (a ++ b).data = a.data ++ b.data := rfl

theorem str_eq_of_data {a b : String} (h : a.data = b.data) : a = b := by
  cases a; cases b; exact congrArg String.mk h

/-- The stem and suffix recombine to the original name. -/
theorem pyStem_append_pySuffix (n : String) : pyStem n ++ pySuffix n = n := by
  unfold pyStem pySuffix pySplitExt
  dsimp only
  split
  · exact str_eq_of_data (by simp [strData_append])
  · split
    · exact str_eq_of_data (by simp [strData_append])
    · exact str_eq_of_data (by simp [strData_append])

theorem append_singleton_inj {α : Type _} {l₁ l₂ : List α} {a b : α}
    (h : l₁ ++ [a] = l₂ ++ [b]) : l₁ = l₂ ∧ a = b := by
  have h' := congrArg List.reverse h
  simp only [List.reverse_append, List.reverse_singleton, List.singleton_append,
    List.cons.injEq] at h'
  exact ⟨by simpa using congrArg List.reverse h'.2, h'.1⟩

theorem relative_to_eq_some {p root rel : FPath}
    (h : relative_to p root = some rel) :
    p.segs = root.segs ++ rel.segs := by
  unfold relative_to at h
  split at h
  · rename_i hpre
    rw [ List.isPrefixOf_iff_prefix] at hpre
    obtain ⟨t, ht⟩ := hpre
    cases h
    rw [← ht]
    simp [List.drop_left]
  · exact absurd h (by simp)

theorem eligible_suffix {p root : FPath}
    (h : is_roadmap_script p root = .ok true) : pySuffix p.name = ".py" := by
  unfold is_roadmap_script at h
  by_contra hne
  simp [hne] at h

theorem eligible_relative {p root : FPath}
    (h : is_roadmap_script p root = .ok true) :
    ∃ rel, relative_to p root = some rel := by
  unfold is_roadmap_script at h
  split at h
  · simp at h
  · split at h
    · simp at h
    · split at h
      · simp at h
      · split at h
        · exact absurd h (by simp)
        · rename_i rel hrel
          exact ⟨rel, hrel⟩

theorem fpath_ext {p q : FPath} (h : p.segs = q.segs) : p = q := by
  cases p; cases q; cases h; rfl

theorem expected_test_path_eq_of_rel {p root rel : FPath}
    (h : relative_to p root = some rel) :
    expected_test_path p root =
      match rel.segs.getLast? with
      | none => none
      | some n => some ⟨root.segs ++ "tests" ::
          (rel.segs.dropLast ++ ["test_" ++ pyStem n ++ ".py"])⟩ := by
  unfold expected_test_path
  rw [h]

theorem test_name_inj {s t : String}
    (h : "test_" ++ s ++ ".py" = "test_" ++ t ++ ".py") : s = t := by
  have hd := congrArg String.data h
  simp only [strData_append, List.append_assoc] at hd
  have hd2 := List.append_cancel_left hd
  have hd3 := List.append_cancel_right hd2
  exact str_eq_of_data hd3

/-- C1: the matching-test path function is injective over eligible script
paths under one scan root; in particular a flat `a_b.py` and a nested
`a/b.py` receive distinct expected test paths. -/
theorem c1_expected_test_path_injective (p q root : FPath)
    (hp : is_roadmap_script p root = .ok true)
    (hq : is_roadmap_script q root = .ok true)
    (hne : p ≠ q) :
    expected_test_path p root ≠ expected_test_path q root := by
  intro heq
  obtain ⟨rp, hrp⟩ := eligible_relative hp
  obtain ⟨rq, hrq⟩ := eligible_relative hq
  have hps := relative_to_eq_some hrp
  have hqs := relative_to_eq_some hrq
  rw [expected_test_path_eq_of_rel hrp, expected_test_path_eq_of_rel hrq] at heq
  rcases List.eq_nil_or_concat rp.segs with hrpe | ⟨dp, np, hrpe⟩ <;>
    rcases List.eq_nil_or_concat rq.segs with hrqe | ⟨dq, nq, hrqe⟩
  · -- both relative paths empty: p and q both equal the root
    rw [hrpe] at hps
    rw [hrqe] at hqs
    exact hne (fpath_ext (by rw [hps, hqs]))
  · -- one `some`, one `none`: impossible
    rw [hrpe, hrqe] at heq
    simp [List.getLast?_concat] at heq
  · rw [hrpe, hrqe] at heq
    simp [List.getLast?_concat] at heq
  · -- both nonempty: peel the shared structure of the two test paths
    rw [List.concat_eq_append] at hrpe hrqe
    rw [hrpe, hrqe, List.getLast?_concat, List.getLast?_concat,
      List.dropLast_concat, List.dropLast_concat] at heq
    have hsegs : root.segs ++ "tests" :: (dp ++ ["test_" ++ pyStem np ++ ".py"]) =
        root.segs ++ "tests" :: (dq ++ ["test_" ++ pyStem nq ++ ".py"]) := by
      have := Option.some.inj heq
      exact congrArg FPath.segs this
    have htail := List.append_cancel_left hsegs
    have hbody : dp ++ ["test_" ++ pyStem np ++ ".py"] =
        dq ++ ["test_" ++ pyStem nq ++ ".py"] := by
      exact (List.cons.injEq _ _ _ _ ▸ htail).2
    obtain ⟨hdirs, hnames⟩ := append_singleton_inj hbody
    have hstem : pyStem np = pyStem nq := test_name_inj hnames
    -- recover the script filenames from their stems via the `.py` suffix
    have hpn : p.name = np := by
      unfold FPath.name
      rw [hps, hrpe, ← List.append_assoc, List.getLast?_concat]
      rfl
    have hqn : q.name = nq := by
      unfold FPath.name
      rw [hqs, hrqe, ← List.append_assoc, List.getLast?_concat]
      rfl
    have hnp : np = pyStem np ++ ".py" := by
      conv_lhs => rw [← pyStem_append_pySuffix np]
      rw [← hpn, eligible_suffix hp, hpn]
    have hnq : nq = pyStem nq ++ ".py" := by
      conv_lhs => rw [← pyStem_append_pySuffix nq]
      rw [← hqn, eligible_suffix hq, hqn]
    have hname_eq : np = nq := by rw [hnp, hnq, hstem]
    exact hne (fpath_ext (by rw [hps, hqs, hrpe, hrqe, hdirs, hname_eq]))

theorem c1_expected_test_path_injective_witness :
    is_roadmap_script ⟨["scripts", "a_b.py"]⟩ ⟨["scripts"]⟩ = .ok true ∧
    is_roadmap_script ⟨["scripts", "a", "b.py"]⟩ ⟨["scripts"]⟩ = .ok true ∧
    expected_test_path ⟨["scripts", "a_b.py"]⟩ ⟨["scripts"]⟩ ≠
      expected_test_path ⟨["scripts", "a", "b.py"]⟩ ⟨["scripts"]⟩ :=
  ⟨by rfl, by rfl,
    c1_expected_test_path_injective _ _ _ (by rfl) (by rfl) (by decide)⟩

/-! ### Runtime-metadata lemmas -/

theorem dictGet_ne_nil {m : List (String × String)} {k v : String}
    (h : dictGet m k = some v) : m.isEmpty = false := by
  cases m
  · simp [dictGet] at h
  · rfl

theorem validate_runtime_metadata_of_req {path : FPath} {text v : String}
    (h : dictGet (parse_uv_metadata text) "requires-python" = some v) :
    validate_runtime_metadata path text =
      ((if (pySplitlines text).headD "" = UV_SHEBANG then []
        else [⟨path, missingShebangMessage⟩]) ++
       (if _has_required_python_baseline v then []
        else [⟨path, requiresPythonMessage⟩])) ++
      (if dictContains (parse_uv_metadata text) "dependencies" then []
       else [⟨path, dependenciesMessage⟩]) := by
  unfold validate_runtime_metadata
  simp only [dictGet_ne_nil h, h, Bool.false_eq_true, if_false]
  by_cases h1 : (pySplitlines text).headD "" = UV_SHEBANG <;>
    by_cases h2 : _has_required_python_baseline v <;>
    by_cases h3 : dictContains (parse_uv_metadata text) "dependencies" <;>
    simp [h1, h2, h3]

/-- C2 counterexample: a script whose first line is exactly the uv shebang
but which has no metadata block receives only the missing-block issue, not
the missing-shebang issue, so the two issues are not always joint. -/
theorem c2_counterexample :
    parse_uv_metadata UV_SHEBANG = [] ∧
    validate_runtime_metadata ⟨["scripts", "demo.py"]⟩ UV_SHEBANG =
      [⟨⟨["scripts", "demo.py"]⟩, missingBlockMessage⟩] := by
  exact ⟨rfl, rfl⟩

/-- C2 (amended): when the metadata block is absent, the missing-block
issue is always emitted, and the missing-shebang issue is emitted exactly
when the first line differs from the uv shebang (the two checks are
independent). -/
theorem c2_missing_block_issues (path : FPath) (text : String)
    (hmeta : parse_uv_metadata text = []) :
    validate_runtime_metadata path text =
      (if (pySplitlines text).headD "" = UV_SHEBANG then []
       else [⟨path, missingShebangMessage⟩]) ++ [⟨path, missingBlockMessage⟩] := by
  unfold validate_runtime_metadata
  simp only [hmeta, List.isEmpty_nil, if_true]
  by_cases h1 : (pySplitlines text).headD "" = UV_SHEBANG <;> simp [h1]

theorem c2_missing_block_issues_witness :
    validate_runtime_metadata ⟨["scripts", "w.py"]⟩ "" =
      [⟨⟨["scripts", "w.py"]⟩, missingShebangMessage⟩,
       ⟨⟨["scripts", "w.py"]⟩, missingBlockMessage⟩] := by
  rw [c2_missing_block_issues ⟨["scripts", "w.py"]⟩ "" rfl]
  rfl

/-- C3: with a parsed metadata block, a `requires-python` value of
`>=3.12` yields the requires-python issue, while `>=3.13` and `>=3.13.4`
do not. -/
theorem c3_requires_python_baseline (path : FPath) (text : String) :
    (dictGet (parse_uv_metadata text) "requires-python" = some ">=3.12" →
      (⟨path, requiresPythonMessage⟩ : BaselineIssue) ∈ validate_runtime_metadata path text) ∧
    (dictGet (parse_uv_metadata text) "requires-python" = some ">=3.13" →
      (⟨path, requiresPythonMessage⟩ : BaselineIssue) ∉ validate_runtime_metadata path text) ∧
    (dictGet (parse_uv_metadata text) "requires-python" = some ">=3.13.4" →
      (⟨path, requiresPythonMessage⟩ : BaselineIssue) ∉ validate_runtime_metadata path text) := by
  refine ⟨fun h => ?_, fun h => ?_, fun h => ?_⟩ <;>
    rw [validate_runtime_metadata_of_req h]
  · have hv : _has_required_python_baseline ">=3.12" = false := by rfl
    simp [hv]
  · have hv : _has_required_python_baseline ">=3.13" = true := by rfl
    have hm1 : missingShebangMessage ≠ requiresPythonMessage := by decide
    have hm2 : dependenciesMessage ≠ requiresPythonMessage := by decide
    by_cases h1 : (pySplitlines text).headD "" = UV_SHEBANG <;>
      by_cases h3 : dictContains (parse_uv_metadata text) "dependencies" <;>
      simp [hv, h1, h3, BaselineIssue.mk.injEq, hm1.symm, hm2.symm]
  · have hv : _has_required_python_baseline ">=3.13.4" = true := by rfl
    have hm1 : missingShebangMessage ≠ requiresPythonMessage := by decide
    have hm2 : dependenciesMessage ≠ requiresPythonMessage := by decide
    by_cases h1 : (pySplitlines text).headD "" = UV_SHEBANG <;>
      by_cases h3 : dictContains (parse_uv_metadata text) "dependencies" <;>
      simp [hv, h1, h3, BaselineIssue.mk.injEq, hm1.symm, hm2.symm]

theorem c3_requires_python_baseline_witness :
    ((⟨⟨["scripts", "w.py"]⟩, requiresPythonMessage⟩ : BaselineIssue) ∈
      validate_runtime_metadata ⟨["scripts", "w.py"]⟩
        "# /// script\n# requires-python = >=3.12\n# ///") ∧
    ((⟨⟨["scripts", "w.py"]⟩, requiresPythonMessage⟩ : BaselineIssue) ∉
      validate_runtime_metadata ⟨["scripts", "w.py"]⟩
        "# /// script\n# requires-python = >=3.13\n# ///") ∧
    ((⟨⟨["scripts", "w.py"]⟩, requiresPythonMessage⟩ : BaselineIssue) ∉
      validate_runtime_metadata ⟨["scripts", "w.py"]⟩
        "# /// script\n# requires-python = >=3.13.4\n# ///") :=
  ⟨(c3_requires_python_baseline _ _).1 (by rfl),
   (c3_requires_python_baseline _ _).2.1 (by rfl),
   (c3_requires_python_baseline _ _).2.2 (by rfl)⟩

/-! ### Command-invocation lemmas -/

/-- C4: the Cuprum-usage detector gates the invocation-posture checks
(false means only the pattern issues are returned), and whenever usage is
detected and `scoped(` is absent from the text the guarded-execution
issue is emitted regardless of the run-invocation detector. -/
theorem c4_cuprum_gating (detect runPresent : String → Bool)
    (path : FPath) (text : String) :
    (detect text = false →
      validate_command_invocation detect runPresent path text =
        _check_forbidden_patterns path text) ∧
    (detect text = true → containsSubstr text "scoped(" = false →
      (⟨path, scopedMessage⟩ : BaselineIssue) ∈
        validate_command_invocation detect runPresent path text) := by
  constructor
  · intro h
    unfold validate_command_invocation
    simp [h]
  · intro h hs
    unfold validate_command_invocation _validate_cuprum_requirements
    by_cases hr : runPresent text <;> simp [h, hs, hr]

theorem c4_cuprum_gating_witness :
    detectCuprumUsageFallback "x = 1\n" = false ∧
    validate_command_invocation detectCuprumUsageFallback runInvocationFallback
        ⟨["scripts", "w.py"]⟩ "x = 1\n" =
      _check_forbidden_patterns ⟨["scripts", "w.py"]⟩ "x = 1\n" ∧
    detectCuprumUsageFallback "Program(tool)\nsh.make(x)\nrun_sync()\n" = true ∧
    containsSubstr "Program(tool)\nsh.make(x)\nrun_sync()\n" "scoped(" = false ∧
    (⟨⟨["scripts", "w.py"]⟩, scopedMessage⟩ : BaselineIssue) ∈
      validate_command_invocation detectCuprumUsageFallback runInvocationFallback
        ⟨["scripts", "w.py"]⟩ "Program(tool)\nsh.make(x)\nrun_sync()\n" :=
  ⟨by rfl,
   (c4_cuprum_gating detectCuprumUsageFallback runInvocationFallback
     ⟨["scripts", "w.py"]⟩ "x = 1\n").1 (by rfl),
   by rfl, by rfl,
   (c4_cuprum_gating detectCuprumUsageFallback runInvocationFallback
     ⟨["scripts", "w.py"]⟩ "Program(tool)\nsh.make(x)\nrun_sync()\n").2
     (by rfl) (by rfl)⟩

theorem check_foldl_eq (path : FPath) (text : String) :
    ∀ (rules : List ((String → Bool) × String)) (init : List BaselineIssue),
      rules.foldl
          (fun issues rule =>
            if rule.1 text then issues ++ [⟨path, rule.2⟩] else issues)
          init
        = init ++ (rules.filter (fun rule => rule.1 text)).map
            (fun rule => ⟨path, rule.2⟩)
  | [], init => by simp
  | rule :: rules, init => by
    simp only [List.foldl_cons, List.filter_cons]
    by_cases h : rule.1 text
    · rw [if_pos h,
        check_foldl_eq path text rules (init ++ [(⟨path, rule.2⟩ : BaselineIssue)])]
      simp [h]
    · rw [if_neg h, check_foldl_eq path text rules init]
      simp [h]

/-- C10: forbidden-pattern detection is purely textual — the pattern in a
comment line `# subprocess.run(x)` still fires — and each rule contributes
at most one issue per script (the issue count equals the number of
matching rules, not the number of occurrences). -/
theorem c10_forbidden_patterns_textual :
    ((⟨⟨["scripts", "w.py"]⟩, "subprocess invocation is forbidden; use Cuprum"⟩ :
        BaselineIssue) ∈
      _check_forbidden_patterns ⟨["scripts", "w.py"]⟩ "# subprocess.run(x)") ∧
    ∀ (path : FPath) (text : String),
      (_check_forbidden_patterns path text).length =
        FORBIDDEN_PATTERNS.countP (fun rule => rule.1 text) := by
  constructor
  · decide
  · intro path text
    rw [_check_forbidden_patterns, check_foldl_eq]
    simp [List.countP_eq_length_filter]

/-! ### Per-script validation lemmas -/

/-- C5: a script whose read fails yields exactly one issue, the
unable-to-read message, and no other check runs for it. -/
theorem c5_read_error_single_issue (fs : FileSystem)
    (detect runPresent : String → Bool) (script_path scripts_root : FPath)
    (detail : String) (h : fs.readFile script_path = .error detail) :
    validate_script fs detect runPresent script_path scripts_root =
      .ok [⟨script_path, unableToReadMessage detail⟩] := by
  unfold validate_script
  rw [h]

theorem c5_read_error_single_issue_witness :
    emptyFs.readFile ⟨["scripts", "w.py"]⟩ = .error "No such file or directory" ∧
    validate_script emptyFs detectCuprumUsageFallback runInvocationFallback
        ⟨["scripts", "w.py"]⟩ ⟨["scripts"]⟩ =
      .ok [⟨⟨["scripts", "w.py"]⟩, unableToReadMessage "No such file or directory"⟩] :=
  ⟨rfl, c5_read_error_single_issue emptyFs detectCuprumUsageFallback
    runInvocationFallback ⟨["scripts", "w.py"]⟩ ⟨["scripts"]⟩
    "No such file or directory" rfl⟩

/-! ### Ordering of rendered issues -/

theorem issueLe_total (a b : BaselineIssue) : issueLe a b || issueLe b a := by
  simp only [issueLe, Bool.or_eq_true, decide_eq_true_eq]
  rcases lt_trichotomy (pathStr a.path) (pathStr b.path) with h | h | h
  · exact Or.inl (Or.inl h)
  · rcases le_total a.message b.message with hm | hm
    · exact Or.inl (Or.inr ⟨h, hm⟩)
    · exact Or.inr (Or.inr ⟨h.symm, hm⟩)
  · exact Or.inr (Or.inl h)

theorem issueLe_trans (a b c : BaselineIssue)
    (hab : issueLe a b) (hbc : issueLe b c) : issueLe a c := by
  simp only [issueLe, decide_eq_true_eq] at *
  rcases hab with h1 | ⟨h1, m1⟩ <;> rcases hbc with h2 | ⟨h2, m2⟩
  · exact Or.inl (h1.trans h2)
  · exact Or.inl (h2 ▸ h1)
  · exact Or.inl (h1 ▸ h2)
  · exact Or.inr ⟨h1.trans h2, m1.trans m2⟩

/-- C6: `main` exits 1 with the rendered failure report exactly when the
aggregated issue list (explicit-path issues then per-script issues) is
non-empty, else exits 0 printing the passed message with the script
count; the rendered issues are sorted ascending by (path string,
message). -/
theorem c6_main_exit_and_report (fs : FileSystem)
    (detect runPresent : String → Bool) (argvPaths : List FPath) (root : FPath)
    (sps : List FPath) (exps : List BaselineIssue)
    (per : List (List BaselineIssue))
    (hsel : selectScripts fs argvPaths root = .ok (sps, exps))
    (hval : sps.mapM (fun p => validate_script fs detect runPresent p root) =
      .ok per) :
    (main fs detect runPresent argvPaths root =
      if (exps ++ per.flatten).isEmpty then .ok (0, passedMessage sps.length)
      else .ok (1, render_issues (exps ++ per.flatten) root)) ∧
    List.Pairwise (fun a b => issueLe a b = true)
      (sortIssues (exps ++ per.flatten)) := by
  constructor
  · unfold main
    rw [hsel]
    simp only [Except.bind]
    rw [hval]
    simp only [Except.bind]
    by_cases h : (exps ++ per.flatten).isEmpty <;> simp [h]
  · exact List.sorted_mergeSort issueLe_trans issueLe_total (exps ++ per.flatten)

theorem c6_main_exit_and_report_witness :
    selectScripts emptyFs [] ⟨["scripts"]⟩ = .ok ([], []) ∧
    main emptyFs detectCuprumUsageFallback runInvocationFallback [] ⟨["scripts"]⟩ =
      .ok (0, passedMessage 0) ∧
    List.Pairwise (fun a b => issueLe a b = true) (sortIssues []) := by
  have hsel : selectScripts emptyFs [] ⟨["scripts"]⟩ = .ok ([], []) := by
    unfold selectScripts discover_roadmap_scripts
    simp [emptyFs, filterEligible, List.mergeSort_nil]
  have h := c6_main_exit_and_report emptyFs detectCuprumUsageFallback
    runInvocationFallback [] ⟨["scripts"]⟩ [] [] [] hsel (by rfl)
  exact ⟨hsel, by simpa using h.1, h.2⟩

/-! ### Explicit-path lemmas -/

/-- C7 counterexample: an explicit path that does not exist is not
skipped — it is enqueued for validation, produces an unable-to-read
issue, and forces exit code 1. -/
theorem c7_counterexample :
    emptyFs.pathExists ⟨["scripts", "missing.py"]⟩ = false ∧
    _process_explicit_paths emptyFs [⟨["scripts", "missing.py"]⟩] ⟨["scripts"]⟩ =
      ([⟨["scripts", "missing.py"]⟩], []) ∧
    main emptyFs detectCuprumUsageFallback runInvocationFallback
        [⟨["scripts", "missing.py"]⟩] ⟨["scripts"]⟩ =
      .ok (1, failureHeader ++
        "\n- missing.py: unable to read script: No such file or directory") := by
  refine ⟨rfl, rfl, ?_⟩
  have hmain : main emptyFs detectCuprumUsageFallback runInvocationFallback
      [⟨["scripts", "missing.py"]⟩] ⟨["scripts"]⟩ =
      .ok (1, render_issues
        [⟨⟨["scripts", "missing.py"]⟩,
          unableToReadMessage "No such file or directory"⟩] ⟨["scripts"]⟩) := rfl
  rw [hmain]
  unfold render_issues sortIssues
  rw [List.mergeSort_singleton]
  rfl

theorem process_mem_aux (fs : FileSystem) (scripts_root p : FPath)
    (hnone : _validate_explicit_path fs p scripts_root = none) :
    ∀ (paths : List FPath) (acc : List FPath × List BaselineIssue),
      p ∈ acc.1 ∨ p ∈ paths →
      p ∈ (paths.foldl
        (fun acc path =>
          match _validate_explicit_path fs path scripts_root with
          | some issue => (acc.1, acc.2 ++ [issue])
          | none => (acc.1 ++ [path], acc.2)) acc).1
  | [], acc, h => by
    rcases h with h | h
    · simpa using h
    · simp at h
  | q :: paths, acc, h => by
    simp only [List.foldl_cons]
    apply process_mem_aux fs scripts_root p hnone paths
    rcases h with h | h
    · left
      cases hq : _validate_explicit_path fs q scripts_root <;> simp [hq, h]
    · rcases List.mem_cons.mp h with rfl | h
      · left
        rw [hnone]
        simp
      · exact Or.inr h

/-- C7 (amended): a non-existent explicit path draws no explicit-path
issue, but it IS added to the validation set; its read then fails, so it
contributes an unable-to-read issue rather than being a no-op. -/
theorem c7_nonexistent_explicit_path (fs : FileSystem)
    (detect runPresent : String → Bool) (paths : List FPath)
    (p scripts_root : FPath) (hex : fs.pathExists p = false) :
    _validate_explicit_path fs p scripts_root = none ∧
    (p ∈ paths → p ∈ (_process_explicit_paths fs paths scripts_root).1) ∧
    (∀ detail, fs.readFile p = .error detail →
      validate_script fs detect runPresent p scripts_root =
        .ok [⟨p, unableToReadMessage detail⟩]) := by
  have hnone : _validate_explicit_path fs p scripts_root = none := by
    unfold _validate_explicit_path
    simp [hex]
  refine ⟨hnone, fun hp => ?_, fun detail hr => ?_⟩
  · unfold _process_explicit_paths
    exact process_mem_aux fs scripts_root p hnone paths ([], []) (Or.inr hp)
  · unfold validate_script
    rw [hr]

theorem c7_nonexistent_explicit_path_witness :
    emptyFs.pathExists ⟨["scripts", "missing.py"]⟩ = false ∧
    _validate_explicit_path emptyFs ⟨["scripts", "missing.py"]⟩ ⟨["scripts"]⟩ =
      none ∧
    ⟨["scripts", "missing.py"]⟩ ∈
      (_process_explicit_paths emptyFs [⟨["scripts", "missing.py"]⟩]
        ⟨["scripts"]⟩).1 ∧
    validate_script emptyFs detectCuprumUsageFallback runInvocationFallback
        ⟨["scripts", "missing.py"]⟩ ⟨["scripts"]⟩ =
      .ok [⟨⟨["scripts", "missing.py"]⟩,
        unableToReadMessage "No such file or directory"⟩] := by
  have h := c7_nonexistent_explicit_path emptyFs detectCuprumUsageFallback
    runInvocationFallback [⟨["scripts", "missing.py"]⟩]
    ⟨["scripts", "missing.py"]⟩ ⟨["scripts"]⟩ rfl
  exact ⟨rfl, h.1, h.2.1 (by simp), h.2.2 "No such file or directory" rfl⟩

/-- C8: validation is deterministic — two runs of `main` with identical
arguments over filesystems that agree on every observation produce
identical exit codes and output. -/
theorem c8_deterministic (fs₁ fs₂ : FileSystem)
    (detect runPresent : String → Bool) (argvPaths : List FPath) (root : FPath)
    (hr : fs₁.readFile = fs₂.readFile) (he : fs₁.pathExists = fs₂.pathExists)
    (hf : fs₁.isFile = fs₂.isFile) (hl : fs₁.listing = fs₂.listing) :
    main fs₁ detect runPresent argvPaths root =
      main fs₂ detect runPresent argvPaths root := by
  cases fs₁
  cases fs₂
  dsimp only at hr he hf hl
  subst hr he hf hl
  rfl

theorem c8_deterministic_witness :
    main emptyFs detectCuprumUsageFallback runInvocationFallback []
        ⟨["scripts"]⟩ =
      main emptyFs detectCuprumUsageFallback runInvocationFallback []
        ⟨["scripts"]⟩ :=
  c8_deterministic emptyFs emptyFs detectCuprumUsageFallback
    runInvocationFallback [] ⟨["scripts"]⟩ rfl rfl rfl rfl

/-- C9: an existing regular file failing a filename check gets the
not-a-roadmap-entrypoint message even outside the scripts root; the
must-be-under-scripts-root message arises only when all three filename
checks pass and relativization fails. -/
theorem c9_explicit_path_messages (fs : FileSystem) (path scripts_root : FPath)
    (hex : fs.pathExists path = true) (hf : fs.isFile path = true) :
    ((pySuffix path.name ≠ ".py" ∨ strStartsWith path.name "_" = true ∨
        path.name = "__init__.py") →
      _validate_explicit_path fs path scripts_root =
        some ⟨path, notRoadmapMessage⟩) ∧
    (_validate_explicit_path fs path scripts_root =
        some ⟨path, underRootMessage⟩ →
      pySuffix path.name = ".py" ∧ strStartsWith path.name "_" = false ∧
        path.name ≠ "__init__.py" ∧ relative_to path scripts_root = none) := by
  have hm : notRoadmapMessage ≠ underRootMessage := by decide
  unfold _validate_explicit_path is_roadmap_script
  simp only [hex, hf, Bool.not_true, Bool.false_eq_true, if_false]
  constructor
  · intro h
    by_cases h1 : pySuffix path.name = ".py"
    · by_cases h2 : strStartsWith path.name "_"
      · simp [h1, h2]
      · have h3 : path.name = "__init__.py" := by tauto
        simp [h1, h2, h3]
    · simp [h1]
  · intro h
    by_cases h1 : pySuffix path.name = ".py"
    · by_cases h2 : strStartsWith path.name "_"
      · rw [if_neg (by simp [h1]), if_pos h2] at h
        exact absurd (BaselineIssue.mk.injEq _ _ _ _ ▸ Option.some.inj h).2 hm
      · by_cases h3 : path.name = "__init__.py"
        · rw [if_neg (by simp [h1]), if_neg (by simp [h2]), if_pos h3] at h
          exact absurd (BaselineIssue.mk.injEq _ _ _ _ ▸ Option.some.inj h).2 hm
        · rw [if_neg (by simp [h1]), if_neg (by simp [h2]), if_neg h3] at h
          cases hrel : relative_to path scripts_root with
          | none => exact ⟨h1, by simpa using h2, h3, rfl⟩
          | some rel =>
            rw [hrel] at h
            dsimp only at h
            cases hb : rel.segs.contains "tests" with
            | true =>
              rw [hb] at h
              simp only [Bool.not_true] at h
              exact absurd (congrArg BaselineIssue.message (Option.some.inj h)) hm
            | false =>
              rw [hb] at h
              simp at h
    · rw [if_pos (by simp [h1])] at h
      exact absurd (BaselineIssue.mk.injEq _ _ _ _ ▸ Option.some.inj h).2 hm

theorem c9_explicit_path_messages_witness :
    presentFs.pathExists ⟨["elsewhere", "tool.txt"]⟩ = true ∧
    presentFs.isFile ⟨["elsewhere", "tool.txt"]⟩ = true ∧
    relative_to ⟨["elsewhere", "tool.txt"]⟩ ⟨["scripts"]⟩ = none ∧
    _validate_explicit_path presentFs ⟨["elsewhere", "tool.txt"]⟩ ⟨["scripts"]⟩ =
      some ⟨⟨["elsewhere", "tool.txt"]⟩, notRoadmapMessage⟩ :=
  ⟨rfl, rfl, rfl,
    (c9_explicit_path_messages presentFs ⟨["elsewhere", "tool.txt"]⟩
      ⟨["scripts"]⟩ rfl rfl).1 (Or.inl (by decide))⟩

end VerifyScriptBaseline
